import Mathlib

/-!
Verification of the download orchestration subsystem of a video-download
chat bot (`videodlbot`), against its natural-language specification.

The definitions below are shallow embeddings of the Python sources:

* `videodlbot/download/downloader.py` — codec decision engine
  (`need_convert_vcodec`, `need_convert_acodec`, the convert plan built
  inside `download_video`), and the worker's progress-write protocol
  (`on_progress` / `on_postprocess`).
* `videodlbot/bot/progress.py` — the pure progress formatter
  (`build_download_progress_message`).
* `videodlbot/bot/download.py` — the orchestrator `process_url`
  (preflight size check, worker outcome handling, delivery routing,
  cleanup) modelled as a pure function over an environment describing
  the externally observable events of one run.
* `videodlbot/config/settings.py` — size constants.

Python strings are Lean `String`s; Python numbers appearing in the
formatter are modelled by `ℚ` (the inputs exercised are exactly
representable, so float rounding is immaterial); dictionary fields read
with `.get(key, default)` become `Option` fields with the default
applied at the read site.
-/

namespace Videodlbot

/-! ## Constants (`videodlbot/utils/__init__.py`, `config/settings.py`) -/

/-- Constant `BYTES_MB = 1048576` — one binary megabyte, in bytes. -/
def BYTES_MB : ℤ := 1048576

/-- Constant `MAX_TELEGRAM_FILE_SIZE = 50 * BYTES_MB` — the direct-delivery
threshold of the Telegram transport. -/
def MAX_TELEGRAM_FILE_SIZE : ℤ := 50 * BYTES_MB

/-! ## Codec decision engine (`downloader.py`, lines 34–53) -/

/-- Python `s.startswith(p)`, computed on the character lists. -/
def pyStartswith (s p : String) : Bool :=
  p.data.isPrefixOf s.data

/-- The prefix-normalisation step of `need_convert_vcodec`
(`downloader.py` lines 37–48): the chain of
`if vcodec.startswith(...)` reassignments applied to a non-empty codec
identifier. -/
def normalize_vcodec (vcodec : String) : String :=
  if pyStartswith vcodec "avc1" then "h264"
  else if pyStartswith vcodec "av01" then "av01"
  else if pyStartswith vcodec "hvc1" then "h265"
  else if pyStartswith vcodec "hevc" then "h265"
  else if pyStartswith vcodec "h264" then "h264"
  else if pyStartswith vcodec "h265" then "h265"
  else vcodec

/-- Function `need_convert_vcodec` (`downloader.py` lines 34–49): empty codec →
convert; otherwise normalise the prefix and convert unless the result
is one of `h264`, `h265`, `avc1`, `av01`. -/
def need_convert_vcodec (vcodec : String) : Bool :=
  if vcodec = "" then true
  else decide (normalize_vcodec vcodec ∉ (["h264", "h265", "avc1", "av01"] : List String))

/-- Function `need_convert_acodec` (`downloader.py` lines 52–53). -/
def need_convert_acodec (acodec : String) : Bool :=
  decide (acodec ∉ (["aac", "mp4a.40.2", "mp4a.40.5", "mp4a.40.29"] : List String))

/-- The re-encode decision taken inside `download_video`
(`downloader.py` lines 65–109), as a pure function of the metadata
fields it reads.  `needConvert` mirrors the `need_convert` flag; when it
is set, `vArg`/`aArg` are the `-c:v`/`-c:a` arguments handed to the
`FFmpegCopyStream` postprocessor, and `none` otherwise (no
`postprocessor_args` entry is created). -/
structure ConvertPlan where
  needConvert : Bool
  vArg : Option String
  aArg : Option String
  deriving Repr, DecidableEq

/-- Build the convert plan exactly as `download_video` does: read
`vcodec`, `acodec`, `extractor` from the metadata (defaulting to `""`),
gate on `extractor == 'youtube'`, and pick `libx264`/`aac` versus
`copy` per stream. -/
def download_video_plan (info_vcodec info_acodec info_extractor : Option String) :
    ConvertPlan :=
  let vcodec := info_vcodec.getD ""
  let acodec := info_acodec.getD ""
  let extractor := info_extractor.getD ""
  let need_convert :=
    extractor = "youtube" ∧ (need_convert_vcodec vcodec ∨ need_convert_acodec acodec)
  if need_convert then
    { needConvert := true
      vArg := some (if need_convert_vcodec vcodec then "libx264" else "copy")
      aArg := some (if need_convert_acodec acodec then "aac" else "copy") }
  else
    { needConvert := false, vArg := none, aArg := none }

/-! ## Progress formatter (`bot/progress.py`, lines 10–23)

Python floats are modelled by `ℚ`.  Python's `f"{x:.2f}"` rounds the
value to two decimal places half-to-even (`fmtFixed2`), `f"{x:.0f}"`
to an integer half-to-even (`fmtFixed0`). -/

/-- The value `q * scale` rounded to the nearest integer, ties to even (the
rounding used by Python's fixed-point float formatting), computed on the
numerator and denominator with integer operations: with
`n = q.num * scale` and `d = q.den`, the floor is `n.ediv d` and the
fractional part `r/d` is compared against `1/2` as `2*r` against `d`. -/
def roundScaledHalfEven (q : ℚ) (scale : ℤ) : ℤ :=
  let n := q.num * scale
  let d := (q.den : ℤ)
  let f := n.ediv d
  let r := n - f * d
  if 2 * r < d then f
  else if 2 * r > d then f + 1
  else if f % 2 = 0 then f else f + 1

/-- Python `f"{q:.2f}"`: the value rounded half-to-even at two decimal
places, rendered with exactly two digits after the point. -/
def fmtFixed2 (q : ℚ) : String :=
  let n := roundScaledHalfEven q 100
  let sign := if n < 0 then "-" else ""
  let m := n.natAbs
  sign ++ toString (m / 100) ++ "." ++
    (if m % 100 < 10 then "0" else "") ++ toString (m % 100)

/-- Python `f"{q:.0f}"`: the value rounded half-to-even to an integer. -/
def fmtFixed0 (q : ℚ) : String :=
  let n := roundScaledHalfEven q 1
  (if n < 0 then "-" else "") ++ toString n.natAbs

/-- Python `os.path.basename`: the part of the path after the last `/`. -/
def basename (s : String) : String :=
  String.mk ((s.data.reverse.takeWhile (fun c => c ≠ '/')).reverse)

/-- The fields `build_download_progress_message` reads from the
`download_progress` dictionary, each `none` when the key is absent (the
worker's hook copies yt-dlp's status dictionary verbatim, so any key may
be missing).  `speed` is also `none` when the key holds `None`. -/
structure DownloadProgressData where
  total_bytes : Option ℚ
  downloaded_bytes : Option ℚ
  eta : Option ℚ
  filename : Option String
  speed : Option ℚ
  deriving Repr, DecidableEq

/-- The percent expression of `build_download_progress_message`
(`bot/progress.py` line 19): `downloaded / total * 100`, guarded to `0`
when `total_bytes` is not positive, so no division by zero is ever
performed. -/
def progress_percent (total_bytes downloaded_bytes : ℚ) : ℚ :=
  if total_bytes > 0 then downloaded_bytes / total_bytes * 100 else 0

/-- Function `build_download_progress_message` (`bot/progress.py` lines 10–23),
field for field: defaults applied by `.get`, `speed_mbps` zero when
`speed` is falsy (absent, `None`, or `0`), percent per
`progress_percent`, and the four-line message assembled with the same
literals. -/
def build_download_progress_message (p : DownloadProgressData) : String :=
  let total_bytes := p.total_bytes.getD 0
  let downloaded_bytes := p.downloaded_bytes.getD 0
  let eta := p.eta.getD 0
  let filename := basename (p.filename.getD "video")
  let speed_mbps : ℚ := match p.speed with
    | none => 0
    | some s => if s = 0 then 0 else s / (BYTES_MB : ℚ)
  let speed_mbps_str :=
    if speed_mbps > 0 then fmtFixed2 speed_mbps ++ " MiB/s" else "N/A"
  let percent := progress_percent total_bytes downloaded_bytes
  "Downloading " ++ filename ++ "...\t[" ++ (fmtFixed2 percent ++ "%") ++ "]\n" ++
    "Downloaded: " ++ (fmtFixed2 (downloaded_bytes / (BYTES_MB : ℚ)) ++ " MiB") ++
    " at " ++ speed_mbps_str ++ "\n" ++
    "Total: " ++ (fmtFixed2 (total_bytes / (BYTES_MB : ℚ)) ++ " MiB") ++ "\n" ++
    ("ETA: " ++ fmtFixed0 eta ++ " seconds")

/-- String `sub` occurs contiguously inside `s`. -/
def ContainsStr (s sub : String) : Prop :=
  sub.data <:+: s.data

instance (s sub : String) : Decidable (ContainsStr s sub) := by
  unfold ContainsStr; infer_instance

/-! ## The shared progress dictionary (`downloader.py` lines 57–63,
`bot/download.py` lines 109–125)

`ctx.progress_data` is a Python dictionary holding, after any complete
write, at most one of the keys `download_progress` /
`postprocess_progress`.  The worker's hook `on_progress` writes it in
two interpreter-atomic operations — `progress_data.clear()` followed by
`progress_data.update({'download_progress': d.copy()})` — while the
poller reads it between any two of those operations.  The model makes
each dictionary operation one atomic step and collects every state a
concurrent reader can observe during one write. -/

/-- The progress dictionary: one optional value per key the code ever
stores. -/
structure ProgressDict (α β : Type) where
  download_progress : Option α
  postprocess_progress : Option β
  deriving Repr, DecidableEq

/-- Python `progress_data.clear()`. -/
def dict_clear {α β : Type} : ProgressDict α β → ProgressDict α β :=
  fun _ => ⟨none, none⟩

/-- Python `progress_data.update({'download_progress': d})`: sets that key,
leaves the other untouched. -/
def dict_set_download {α β : Type} (d : α) : ProgressDict α β → ProgressDict α β :=
  fun s => { s with download_progress := some d }

/-- The two interpreter-atomic steps of `on_progress`
(`downloader.py` lines 57–59). -/
def on_progress_steps {α β : Type} (d : α) :
    List (ProgressDict α β → ProgressDict α β) :=
  [dict_clear, dict_set_download d]

/-- Every state a reader can observe while a sequence of atomic steps
runs, starting from `s₀`: the state after each prefix of the steps. -/
def observable_states {σ : Type} (s₀ : σ) (steps : List (σ → σ)) : List σ :=
  List.scanl (fun s f => f s) s₀ steps

/-! ## Orchestrator model (`bot/download.py` lines 63–70 and 128–236)

`process_url` (after URL validation and the creation of the status
message) modelled as a pure function of the externally observable
events of one run: the `filesize` metadata entry read by the preflight
check, the worker's outcome, whether messaging-surface `edit_text`
calls raise, the object-storage upload result, and whether the
`reply_video` send raises.  Awaits made through `try_edit_text`
(`bot/common.py` lines 33–37) swallow any exception and so never branch
on `editFails`; the two direct `status_message.edit_text` awaits inside
`_handle_large_file` (lines 133 and 146) do. -/

/-- Function `_check_file_size` (`bot/download.py` lines 63–70): reject exactly
when the `filesize` key is present (`some _`), truthy (non-`None` and
non-zero), and strictly above the limit.  The outer `Option` is key
presence, the inner one a possible `None` value. -/
def check_file_size_passes (filesize : Option (Option ℤ)) (maxFileSize : ℤ) : Bool :=
  match filesize with
  | some (some n) => if n ≠ 0 ∧ n > maxFileSize then false else true
  | _ => true

/-- The size test at the head of `_handle_large_file` (lines 129–131):
the handler takes over (returns `True` to `process_url`) exactly when
the artifact is strictly larger than `MAX_TELEGRAM_FILE_SIZE`. -/
def handle_large_file_takes_over (file_size : ℤ) : Bool :=
  !(file_size ≤ MAX_TELEGRAM_FILE_SIZE)

/-- How the worker thread ended (`_create_download_thread`,
lines 73–89, and the join in `process_url`): it stored an exception in
`download_error`, or finished without error but left no usable output
file, or produced an artifact of the given byte size. -/
inductive WorkerOutcome where
  | error
  | missing
  | produced (size : ℤ)
  deriving Repr, DecidableEq

/-- The externally observable events of one `process_url` run. -/
structure RunEnv where
  /-- The `filesize` metadata entry: key absent, present but `None`, or
  a number of bytes. -/
  filesize : Option (Option ℤ)
  outcome : WorkerOutcome
  /-- Direct (unprotected) `status_message.edit_text` awaits raise. -/
  editFails : Bool
  /-- Result of `upload_to_firebase`: a public URL or `None`. -/
  uploadUrl : Option String
  /-- Whether `update.message.reply_video` raises. -/
  sendVideoFails : Bool
  deriving Repr, DecidableEq

/-- How a run ended, as seen from outside. -/
inductive RunOutcome where
  /-- Preflight size check rejected; no worker run. -/
  | preflightRejected
  /-- Worker stored an exception; generic error caption shown. -/
  | workerError
  /-- Worker finished but output was missing/empty; download-failed note shown. -/
  | downloadFailedNote
  /-- Artifact sent inline over Telegram. -/
  | deliveredInline
  /-- Artifact uploaded to cloud storage; link message sent. -/
  | deliveredOverflowLink
  /-- Overflow upload failed; failure note shown instead of a link. -/
  | overflowUploadFailedNote
  /-- An exception thrown mid-run reached the outer handler; generic
  error caption shown. -/
  | midRunException
  deriving Repr, DecidableEq

/-- What one `process_url` run did. -/
structure RunResult where
  /-- A `DownloadContext` was constructed and the worker thread started. -/
  workerStarted : Bool
  /-- Whether `ctx.cleanup()` ran before `process_url` returned. -/
  cleaned : Bool
  outcome : RunOutcome
  deriving Repr, DecidableEq

/-- Function `process_url` (`bot/download.py` lines 187–236), branch for branch:

* preflight rejection returns before the context is created (lines
  190–191);
* a stored worker error is re-raised (line 212) and lands in the outer
  `except`, which edits via `try_edit_text` and runs `ctx.cleanup()`
  (lines 231–235);
* a missing/empty output edits via `try_edit_text` and returns
  (lines 216–218) — with no cleanup call on that path;
* an artifact above the Telegram limit goes through
  `_handle_large_file` (lines 128–150): an unprotected `edit_text`
  (line 133), then the upload, then either the link reply or an
  unprotected failure-note `edit_text` (line 146); on its `True` return
  `process_url` cleans up and deletes the status message (lines
  222–225);
* otherwise `_send_video_to_telegram` (lines 153–169) sends inline,
  then cleanup and status-message deletion (lines 227–229);
* any exception from those awaits reaches the outer `except`, which
  reports the generic error and cleans up. -/
def process_url_model (maxFileSize : ℤ) (env : RunEnv) : RunResult :=
  if check_file_size_passes env.filesize maxFileSize = false then
    { workerStarted := false, cleaned := false, outcome := .preflightRejected }
  else
    match env.outcome with
    | .error =>
        { workerStarted := true, cleaned := true, outcome := .workerError }
    | .missing =>
        { workerStarted := true, cleaned := false, outcome := .downloadFailedNote }
    | .produced size =>
        if handle_large_file_takes_over size then
          if env.editFails then
            { workerStarted := true, cleaned := true, outcome := .midRunException }
          else
            match env.uploadUrl with
            | some _ =>
                { workerStarted := true, cleaned := true,
                  outcome := .deliveredOverflowLink }
            | none =>
                { workerStarted := true, cleaned := true,
                  outcome := .overflowUploadFailedNote }
        else
          if env.sendVideoFails then
            { workerStarted := true, cleaned := true, outcome := .midRunException }
          else
            { workerStarted := true, cleaned := true, outcome := .deliveredInline }

/-! ## Helper lemmas -/

/-- Two candidate prefixes of the same length cannot both start the same
string unless they are equal. -/
theorem pyStartswith_eq_false_of_ne {p q : String}
    (hlen : p.data.length = q.data.length) (hne : p.data ≠ q.data)
    {s : String} (hp : pyStartswith s p = true) : pyStartswith s q = false := by
  unfold pyStartswith at *
  rw [List.isPrefixOf_iff_prefix] at hp
  rw [Bool.eq_false_iff]
  intro hq
  rw [List.isPrefixOf_iff_prefix] at hq
  rw [List.prefix_iff_eq_take] at hp hq
  exact hne (hp.trans (by rw [hlen, ← hq]))

/-- A string starting with a nonempty prefix is nonempty. -/
theorem ne_empty_of_pyStartswith {p s : String} (hp : pyStartswith s p = true)
    (hne : p ≠ "") : s ≠ "" := by
  intro hs
  subst hs
  unfold pyStartswith at hp
  rw [List.isPrefixOf_iff_prefix, List.prefix_iff_eq_take] at hp
  exact hne (by cases p with | mk d => simp at hp ⊢; simp [hp])

theorem containsStr_appendL {a sub : String} (b : String)
    (h : ContainsStr a sub) : ContainsStr (a ++ b) sub := by
  obtain ⟨s, t, hst⟩ := h
  exact ⟨s, t ++ b.data, by rw [String.data_append, ← hst]; simp⟩

theorem containsStr_appendR (a : String) {b sub : String}
    (h : ContainsStr b sub) : ContainsStr (a ++ b) sub := by
  obtain ⟨s, t, hst⟩ := h
  exact ⟨a.data ++ s, t, by rw [String.data_append, ← hst]; simp⟩

theorem containsStr_self (s : String) : ContainsStr s s :=
  ⟨[], [], by simp⟩

end Videodlbot

namespace Videodlbot

/-! ## Claims -/

/-- Claim C4: For every video codec identifier that is `h264`, `h265`, or
starts with one of the prefixes `avc1`, `av01`, `hvc1`, `hevc`,
`need_convert_vcodec` returns `false`; for the empty string, and for
every identifier whose prefix normalization lands outside the accepted
set `{h264, h265, avc1, av01}`, it returns `true`. -/
theorem C4_need_convert_vcodec_spec :
    (∀ s : String,
        s = "h264" ∨ s = "h265" ∨
          pyStartswith s "avc1" = true ∨ pyStartswith s "av01" = true ∨
          pyStartswith s "hvc1" = true ∨ pyStartswith s "hevc" = true →
        need_convert_vcodec s = false) ∧
    need_convert_vcodec "" = true ∧
    (∀ s : String,
        normalize_vcodec s ∉ (["h264", "h265", "avc1", "av01"] : List String) →
        need_convert_vcodec s = true) := by
  refine ⟨?_, by decide, ?_⟩
  · intro s h
    rcases h with rfl | rfl | h | h | h | h
    · decide
    · decide
    · have hs : s ≠ "" := ne_empty_of_pyStartswith h (by decide)
      simp [need_convert_vcodec, normalize_vcodec, hs, h]
    · have hs : s ≠ "" := ne_empty_of_pyStartswith h (by decide)
      have h1 : pyStartswith s "avc1" = false :=
        pyStartswith_eq_false_of_ne (by decide) (by decide) h
      simp [need_convert_vcodec, normalize_vcodec, hs, h, h1]
    · have hs : s ≠ "" := ne_empty_of_pyStartswith h (by decide)
      have h1 : pyStartswith s "avc1" = false :=
        pyStartswith_eq_false_of_ne (by decide) (by decide) h
      have h2 : pyStartswith s "av01" = false :=
        pyStartswith_eq_false_of_ne (by decide) (by decide) h
      simp [need_convert_vcodec, normalize_vcodec, hs, h, h1, h2]
    · have hs : s ≠ "" := ne_empty_of_pyStartswith h (by decide)
      have h1 : pyStartswith s "avc1" = false :=
        pyStartswith_eq_false_of_ne (by decide) (by decide) h
      have h2 : pyStartswith s "av01" = false :=
        pyStartswith_eq_false_of_ne (by decide) (by decide) h
      have h3 : pyStartswith s "hvc1" = false :=
        pyStartswith_eq_false_of_ne (by decide) (by decide) h
      simp [need_convert_vcodec, normalize_vcodec, hs, h, h1, h2, h3]
  · intro s h
    by_cases hs : s = ""
    · simp [need_convert_vcodec, hs]
    · simp [need_convert_vcodec, hs, h]

/-- Witness for C4: concrete accepted and rejected identifiers. -/
theorem C4_need_convert_vcodec_spec_witness :
    need_convert_vcodec "avc1.640028" = false ∧ need_convert_vcodec "vp9" = true :=
  ⟨C4_need_convert_vcodec_spec.1 "avc1.640028"
      (Or.inr (Or.inr (Or.inl (by decide)))),
    C4_need_convert_vcodec_spec.2.2 "vp9" (by decide)⟩

/-- Claim C5: `need_convert_acodec` returns `false` exactly on the four
literal identifiers `aac`, `mp4a.40.2`, `mp4a.40.5`, `mp4a.40.29`, and
`true` on every other string, the empty string included. -/
theorem C5_need_convert_acodec_spec :
    (∀ s : String,
        need_convert_acodec s = false ↔
          s = "aac" ∨ s = "mp4a.40.2" ∨ s = "mp4a.40.5" ∨ s = "mp4a.40.29") ∧
    need_convert_acodec "" = true := by
  refine ⟨fun s => ?_, by decide⟩
  rw [need_convert_acodec, decide_eq_false_iff_not, not_not]
  simp [List.mem_cons]

/-- Claim C3: Forced re-encoding is requested iff the extractor is
`youtube` and one of the two codec rules fires; when requested, the
`-c:v` argument is `libx264` exactly when the video rule fired (else
`copy`), and the `-c:a` argument is `aac` exactly when the audio rule
fired (else `copy`). -/
theorem C3_download_video_plan_spec :
    ∀ v a e : Option String,
      ((download_video_plan v a e).needConvert = true ↔
        (e.getD "" = "youtube" ∧
          (need_convert_vcodec (v.getD "") = true ∨
            need_convert_acodec (a.getD "") = true))) ∧
      ((download_video_plan v a e).needConvert = true →
        ((download_video_plan v a e).vArg =
            some (if need_convert_vcodec (v.getD "") then "libx264" else "copy") ∧
          (download_video_plan v a e).aArg =
            some (if need_convert_acodec (a.getD "") then "aac" else "copy"))) := by
  intro v a e
  by_cases h : e.getD "" = "youtube" ∧
      (need_convert_vcodec (v.getD "") = true ∨ need_convert_acodec (a.getD "") = true)
  · constructor
    · simp [download_video_plan, h]
    · intro _
      simp [download_video_plan, h]
  · constructor
    · simp only [download_video_plan]
      rw [if_neg (by exact_mod_cast h)]
      simpa using h
    · intro hc
      exfalso
      simp only [download_video_plan] at hc
      rw [if_neg (by exact_mod_cast h)] at hc
      simp at hc

/-- Witness for C3: a YouTube video needing only video conversion gets
`-c:v libx264 -c:a copy`. -/
theorem C3_download_video_plan_spec_witness :
    (download_video_plan (some "vp9") (some "aac") (some "youtube")).vArg =
        some "libx264" ∧
      (download_video_plan (some "vp9") (some "aac") (some "youtube")).aArg =
        some "copy" := by
  have h := (C3_download_video_plan_spec (some "vp9") (some "aac") (some "youtube")).2
    (by decide)
  simpa using h

/-- Claim C10: The preflight size check rejects iff the `filesize`
metadata entry is present, truthy, and strictly above the limit; the
worker is started exactly when the check passes, and an absent, `None`,
or `0` entry always passes, whatever the video's actual size. -/
theorem C10_preflight_size_check_spec :
    ∀ (maxFileSize : ℤ) (entry : Option (Option ℤ)) (env : RunEnv),
      (check_file_size_passes entry maxFileSize = false ↔
        ∃ n : ℤ, entry = some (some n) ∧ n ≠ 0 ∧ n > maxFileSize) ∧
      (process_url_model maxFileSize env).workerStarted =
        check_file_size_passes env.filesize maxFileSize ∧
      (entry = none ∨ entry = some none ∨ entry = some (some 0) →
        check_file_size_passes entry maxFileSize = true) := by
  intro maxFileSize entry env
  refine ⟨?_, ?_, ?_⟩
  · match entry with
    | none => simp [check_file_size_passes]
    | some none => simp [check_file_size_passes]
    | some (some n) =>
      by_cases h : n ≠ 0 ∧ n > maxFileSize
      · simp [check_file_size_passes, h]
      · simp [check_file_size_passes, h]
  · cases hc : check_file_size_passes env.filesize maxFileSize
    · simp [process_url_model, hc]
    · simp only [process_url_model, hc]
      norm_num
      rcases env.outcome with _ | _ | size
      · rfl
      · rfl
      · dsimp only
        split
        · split
          · rfl
          · split <;> rfl
        · split <;> rfl
  · rintro (rfl | rfl | rfl) <;> simp [check_file_size_passes]

/-- Witness for C10: a present-but-`None` entry passes and the worker
starts. -/
theorem C10_preflight_size_check_spec_witness :
    check_file_size_passes (some none) 524288000 = true ∧
      (process_url_model 524288000
          ⟨some none, .missing, false, none, false⟩).workerStarted = true := by
  have h := C10_preflight_size_check_spec 524288000 (some none)
    ⟨some none, .missing, false, none, false⟩
  exact ⟨h.2.2 (Or.inr (Or.inl rfl)), h.2.1.trans (h.2.2 (Or.inr (Or.inl rfl)))⟩

/-- Claim C6: A finished artifact is sent inline exactly when its byte
size is at most `MAX_TELEGRAM_FILE_SIZE`; a strictly larger artifact
routes to the overflow cloud upload (delivering a link, or a distinct
failure note if the upload fails). -/
theorem C6_delivery_router_boundary :
    ∀ (maxFileSize size : ℤ) (env : RunEnv),
      env.outcome = .produced size →
      env.editFails = false →
      env.sendVideoFails = false →
      check_file_size_passes env.filesize maxFileSize = true →
      (((process_url_model maxFileSize env).outcome = .deliveredInline ↔
          size ≤ MAX_TELEGRAM_FILE_SIZE) ∧
        (((process_url_model maxFileSize env).outcome = .deliveredOverflowLink ∨
            (process_url_model maxFileSize env).outcome = .overflowUploadFailedNote) ↔
          size > MAX_TELEGRAM_FILE_SIZE)) := by
  intro maxFileSize size env hout hedit hsend hcheck
  have hmodel : process_url_model maxFileSize env =
      if handle_large_file_takes_over size then
        match env.uploadUrl with
        | some _ =>
            { workerStarted := true, cleaned := true, outcome := .deliveredOverflowLink }
        | none =>
            { workerStarted := true, cleaned := true,
              outcome := .overflowUploadFailedNote }
      else
        { workerStarted := true, cleaned := true, outcome := .deliveredInline } := by
    rw [process_url_model, hcheck, hout]
    norm_num
    split
    · rw [hedit]
      norm_num
    · rw [hsend]
      norm_num
  by_cases hsz : size ≤ MAX_TELEGRAM_FILE_SIZE
  · rw [hmodel, if_neg (by simp [handle_large_file_takes_over, hsz])]
    simp [hsz]
  · rw [hmodel, if_pos (by simp [handle_large_file_takes_over]; omega)]
    cases env.uploadUrl <;> simp [hsz] <;> omega

/-- Witness for C6: an artifact of exactly the threshold size goes
inline; one byte over goes to the overflow upload. -/
theorem C6_delivery_router_boundary_witness :
    (process_url_model 524288000
        ⟨none, .produced 52428800, false, some "url", false⟩).outcome =
      .deliveredInline ∧
    ((process_url_model 524288000
          ⟨none, .produced 52428801, false, some "url", false⟩).outcome =
        .deliveredOverflowLink ∨
      (process_url_model 524288000
          ⟨none, .produced 52428801, false, some "url", false⟩).outcome =
        .overflowUploadFailedNote) :=
  ⟨(C6_delivery_router_boundary 524288000 52428800
        ⟨none, .produced 52428800, false, some "url", false⟩
        rfl rfl rfl (by decide)).1.mpr (by decide),
    (C6_delivery_router_boundary 524288000 52428801
        ⟨none, .produced 52428801, false, some "url", false⟩
        rfl rfl rfl (by decide)).2.mpr (by decide)⟩

/-- Claim C2, counterexample: The claim — a concurrent read of the
progress holder always returns either the previous complete snapshot or
the new complete snapshot — is false for the two-step
clear-then-update write `on_progress` performs: starting from the
previous snapshot `{download_progress: 0}` with the worker writing
snapshot `1`, the reader can observe the cleared dictionary, which is
neither. -/
theorem C2_progress_read_counterexample :
    ¬ (∀ (s₀ : ProgressDict ℕ ℕ) (d : ℕ) (s : ProgressDict ℕ ℕ),
        s ∈ observable_states s₀ (on_progress_steps d) →
        s = s₀ ∨ s = dict_set_download d (dict_clear s₀)) := by
  intro h
  have hmem : (⟨none, none⟩ : ProgressDict ℕ ℕ) ∈
      observable_states (⟨some 0, none⟩ : ProgressDict ℕ ℕ) (on_progress_steps 1) := by
    simp [observable_states, on_progress_steps, List.scanl, dict_clear,
      dict_set_download]
  rcases h ⟨some 0, none⟩ 1 ⟨none, none⟩ hmem with hc | hc <;>
    simp [dict_set_download, dict_clear] at hc

/-- Claim C2, amended: A read of the progress holder during one
`on_progress` write observes the previous complete snapshot, the
cleared (empty) dictionary, or the new complete snapshot — never a
state mixing fields of two snapshots. -/
theorem C2_progress_read_snapshots {α β : Type} (s₀ : ProgressDict α β) (d : α)
    (s : ProgressDict α β) (h : s ∈ observable_states s₀ (on_progress_steps d)) :
    s = s₀ ∨ s = (⟨none, none⟩ : ProgressDict α β) ∨
      s = (⟨some d, none⟩ : ProgressDict α β) := by
  simp only [observable_states, on_progress_steps, List.scanl, dict_clear,
    dict_set_download, List.mem_cons, List.not_mem_nil, or_false] at h
  rcases h with rfl | rfl | rfl
  · exact Or.inl rfl
  · exact Or.inr (Or.inl rfl)
  · exact Or.inr (Or.inr rfl)

/-- Witness for the amended C2, at the concrete interleaving of the
counterexample. -/
theorem C2_progress_read_snapshots_witness :
    (⟨none, none⟩ : ProgressDict ℕ ℕ) = (⟨some 0, none⟩ : ProgressDict ℕ ℕ) ∨
      (⟨none, none⟩ : ProgressDict ℕ ℕ) = (⟨none, none⟩ : ProgressDict ℕ ℕ) ∨
      (⟨none, none⟩ : ProgressDict ℕ ℕ) = (⟨some 1, none⟩ : ProgressDict ℕ ℕ) :=
  C2_progress_read_snapshots ⟨some 0, none⟩ 1 ⟨none, none⟩
    (by simp [observable_states, on_progress_steps, List.scanl, dict_clear,
      dict_set_download])

/-- Claim C1, code evaluated at the failing input: In the run where the
worker finishes without a stored error but its output file is missing
or empty, `process_url` constructed the context and started the worker,
yet returns from the `not output_path` branch without invoking
`ctx.cleanup()` — the temporary directory survives.  Every other
terminal path of the model does clean up. -/
theorem C1_missing_output_skips_cleanup :
    ((process_url_model 524288000
          ⟨none, .missing, false, none, false⟩).workerStarted = true ∧
      (process_url_model 524288000
          ⟨none, .missing, false, none, false⟩).cleaned = false) ∧
    (∀ (maxFileSize : ℤ) (env : RunEnv),
      env.outcome ≠ .missing →
      (process_url_model maxFileSize env).workerStarted = true →
      (process_url_model maxFileSize env).cleaned = true) := by
  refine ⟨by decide, ?_⟩
  intro maxFileSize env hmiss hstart
  by_cases hc : check_file_size_passes env.filesize maxFileSize = false
  · rw [process_url_model, if_pos hc] at hstart
    simp at hstart
  · rw [process_url_model, if_neg hc]
    rcases henv : env.outcome with _ | _ | size
    · rfl
    · exact absurd henv hmiss
    · dsimp only
      split
      · split
        · rfl
        · split <;> rfl
      · split <;> rfl

/-- Witness for C1's universally quantified part: the worker-error run
does clean up. -/
theorem C1_missing_output_skips_cleanup_witness :
    (process_url_model 524288000 ⟨none, .error, false, none, false⟩).cleaned = true :=
  C1_missing_output_skips_cleanup.2 524288000 ⟨none, .error, false, none, false⟩
    (by decide) (by decide)

/-- Claim C9, code evaluated at the failing input: The status edit at
the head of `_handle_large_file` is a direct `edit_text`, not
`try_edit_text`: when the messaging surface's edit raises on an
oversized artifact, the run that would have delivered an overflow link
instead aborts into the generic error handler — the edit failure is
treated as a processing failure. -/
theorem C9_edit_failure_aborts_overflow_delivery :
    (process_url_model 524288000
        ⟨none, .produced 52428801, false, some "dl-url", false⟩).outcome =
      .deliveredOverflowLink ∧
    (process_url_model 524288000
        ⟨none, .produced 52428801, true, some "dl-url", false⟩).outcome =
      .midRunException := by
  decide

/-- Claim C7: For every progress snapshot whose total-bytes value is `0`,
the percent computation takes the guarded branch (no division by zero)
and evaluates to `0`, and the produced line reports `0.00%` whatever
the other fields hold. -/
theorem C7_percent_zero_when_total_zero (p : DownloadProgressData)
    (h : p.total_bytes.getD 0 = 0) :
    progress_percent (p.total_bytes.getD 0) (p.downloaded_bytes.getD 0) = 0 ∧
      ContainsStr (build_download_progress_message p) "0.00%" := by
  have hpc : progress_percent (p.total_bytes.getD 0) (p.downloaded_bytes.getD 0) = 0 := by
    rw [h, progress_percent]
    norm_num
  refine ⟨hpc, ?_⟩
  simp only [build_download_progress_message]
  rw [hpc]
  have h00 : fmtFixed2 0 = "0.00" := by decide
  rw [h00]
  have hpct : ("0.00" ++ "%" : String) = "0.00%" := by decide
  rw [hpct]
  apply containsStr_appendL
  apply containsStr_appendL
  apply containsStr_appendL
  apply containsStr_appendL
  apply containsStr_appendL
  apply containsStr_appendL
  apply containsStr_appendL
  apply containsStr_appendL
  apply containsStr_appendL
  apply containsStr_appendL
  exact containsStr_appendR _ (containsStr_self _)

/-- Witness for C7: a concrete snapshot with `total_bytes = 0` and
nonzero downloaded bytes. -/
theorem C7_percent_zero_when_total_zero_witness :
    progress_percent
        ((DownloadProgressData.mk (some 0) (some 999) (some 1) (some "v.mp4")
            (some 2)).total_bytes.getD 0)
        ((DownloadProgressData.mk (some 0) (some 999) (some 1) (some "v.mp4")
            (some 2)).downloaded_bytes.getD 0) = 0 ∧
      ContainsStr
        (build_download_progress_message
          (DownloadProgressData.mk (some 0) (some 999) (some 1) (some "v.mp4")
            (some 2))) "0.00%" :=
  C7_percent_zero_when_total_zero
    (DownloadProgressData.mk (some 0) (some 999) (some 1) (some "v.mp4") (some 2))
    (by decide)

set_option maxRecDepth 4096 in
/-- Claim C8: The formatter is a pure function of the snapshot; on
`{downloaded_bytes: 52428800, total_bytes: 104857600, speed: 1048576,
eta: 60, filename: "clip.mp4"}` its output contains `50.00%`,
`50.00 MiB`, `100.00 MiB`, `1.00 MiB/s`, and `ETA: 60 seconds`. -/
theorem C8_formatter_concrete_output :
    ContainsStr (build_download_progress_message
        ⟨some 104857600, some 52428800, some 60, some "clip.mp4", some 1048576⟩)
        "50.00%" ∧
    ContainsStr (build_download_progress_message
        ⟨some 104857600, some 52428800, some 60, some "clip.mp4", some 1048576⟩)
        "50.00 MiB" ∧
    ContainsStr (build_download_progress_message
        ⟨some 104857600, some 52428800, some 60, some "clip.mp4", some 1048576⟩)
        "100.00 MiB" ∧
    ContainsStr (build_download_progress_message
        ⟨some 104857600, some 52428800, some 60, some "clip.mp4", some 1048576⟩)
        "1.00 MiB/s" ∧
    ContainsStr (build_download_progress_message
        ⟨some 104857600, some 52428800, some 60, some "clip.mp4", some 1048576⟩)
        "ETA: 60 seconds" := by
  have hmsg : build_download_progress_message
      ⟨some 104857600, some 52428800, some 60, some "clip.mp4", some 1048576⟩ =
      "Downloading clip.mp4...\t[50.00%]\nDownloaded: 50.00 MiB at 1.00 MiB/s\nTotal: 100.00 MiB\nETA: 60 seconds" := by
    have h1 : (52428800 : ℚ) / 104857600 * 100 = 50 := by norm_num
    have h2 : (52428800 : ℚ) / 1048576 = 50 := by norm_num
    have h3 : (104857600 : ℚ) / 1048576 = 100 := by norm_num
    have h4 : (1048576 : ℚ) / 1048576 = 1 := by norm_num
    simp only [build_download_progress_message, progress_percent, BYTES_MB,
      Option.getD, basename]
    norm_num [h1, h2, h3, h4]
    decide
  refine ⟨?_, ?_, ?_, ?_, ?_⟩ <;> rw [hmsg] <;> decide

end Videodlbot


